import Mathlib

/-!
# Verification of the Amazon-lists DOM-automation core

A shallow embedding of the DOM-interaction engine of the `Amazon-lists`
browser extension (files `src/content.js` and `src/lib/site-interaction.js`),
together with proofs and refutations of the specification's claims about it.

Modelling conventions, used throughout:

* JavaScript strings are Lean `String`s; JS string truthiness (`if (s)`)
  is modelled as `s ≠ ""`.
* A fallible `async` JS function is modelled as a pure function returning
  `Except String α` (the `String` is the thrown `Error`'s message).
* A DOM subtree is modelled as the list of its elements in document order
  (`Container`); `querySelector`/`querySelectorAll` become first-match /
  filter over that list.
* The page at large, including the pieces of state the content script reads
  and writes (open overlay, search input value, `sessionStorage` filter
  slot, `userLists` snapshot), is a `PageW` record.  The host page's
  reaction to a simulated gesture is an explicit environment function
  (`HostEnv`), so "the host eventually renders the popover" is an
  assumption about the environment, never baked into the engine's code.
* Timers only matter through the orderings they induce; wall-clock delays
  (`setTimeout(r, 200)` etc.) are modelled by explicit elapsed-time
  accounting where the code compares against a deadline, and dropped where
  the delay has no observable effect on the returned value.
-/

namespace AmazonLists

/-! ## RetryManager (src/content.js lines 134-155)

`RetryManager.retry(operation, options)` runs `operation(attempt)` for
`attempt = 1 .. maxAttempts`; the first successful attempt's value is
returned; when an attempt throws, the error is rethrown immediately if
`attempt === maxAttempts`, otherwise the loop sleeps `baseDelay` ms and
tries again.  The inter-attempt delay has no effect on the resolved value
or the number of invocations and is not modelled.

The operation is modelled as a deterministic function of the attempt
index, `op : Nat → Except E A`.  `retryGo op attempt rest` runs attempts
`attempt, attempt+1, …, attempt+rest` and also counts how many times the
operation was invoked. -/

/-- Outcome of a JS async call: resolved value, rejected with a thrown
error, or rejected with `undefined` (the `throw lastError` after a
zero-iteration loop). -/
inductive JsResult (E A : Type) where
  | ok : A → JsResult E A
  | err : E → JsResult E A
  | undef : JsResult E A
deriving DecidableEq, Repr

/-- The `for` loop body of `RetryManager.retry`: run attempts
`attempt, …, attempt + rest`, returning the result together with the
number of invocations of the operation. -/
def retryGo (op : Nat → Except E A) : Nat → Nat → Except E A × Nat
  | attempt, rest =>
    match op attempt with
    | Except.ok v => (Except.ok v, 1)
    | Except.error e =>
      match rest with
      | 0 => (Except.error e, 1)
      | Nat.succ r =>
        let p := retryGo op (attempt + 1) r
        (p.1, p.2 + 1)

/-- `RetryManager.retry` of src/content.js: attempts run from 1 to
`maxAttempts`.  With `maxAttempts = 0` the loop body never runs and the
function throws the still-`undefined` `lastError`. -/
def retryManagerRetry (op : Nat → Except E A) (maxAttempts : Nat) :
    JsResult E A × Nat :=
  match maxAttempts with
  | 0 => (JsResult.undef, 0)
  | Nat.succ m =>
    match retryGo op 1 m with
    | (Except.ok v, n) => (JsResult.ok v, n)
    | (Except.error e, n) => (JsResult.err e, n)

/-- The loop body of `RetryManager.retry` of src/lib/site-interaction.js
(lines 323-346): identical, except that a failed attempt is also rethrown
immediately when `shouldRetry(error, attempt)` is false.  The computed
backoff delay affects neither the value nor the invocation count and is
not modelled. -/
def retryGoSite (op : Nat → Except E A) (shouldRetry : E → Nat → Bool) :
    Nat → Nat → Except E A × Nat
  | attempt, rest =>
    match op attempt with
    | Except.ok v => (Except.ok v, 1)
    | Except.error e =>
      match rest with
      | 0 => (Except.error e, 1)
      | Nat.succ r =>
        if shouldRetry e attempt then
          let p := retryGoSite op shouldRetry (attempt + 1) r
          (p.1, p.2 + 1)
        else (Except.error e, 1)

/-- `RetryManager.retry` of src/lib/site-interaction.js.  The default
`shouldRetry` (when the caller passes none) is `() => true`. -/
def siteRetry (op : Nat → Except E A) (shouldRetry : E → Nat → Bool)
    (maxAttempts : Nat) : JsResult E A × Nat :=
  match maxAttempts with
  | 0 => (JsResult.undef, 0)
  | Nat.succ m =>
    match retryGoSite op shouldRetry 1 m with
    | (Except.ok v, n) => (JsResult.ok v, n)
    | (Except.error e, n) => (JsResult.err e, n)

lemma retryGo_succeeds (op : Nat → Except E A) (a r k : Nat) (v : A)
    (hak : a ≤ k) (hka : k ≤ a + r)
    (hfail : ∀ i, a ≤ i → i < k → ∃ e, op i = Except.error e)
    (hsucc : op k = Except.ok v) :
    retryGo op a r = (Except.ok v, k - a + 1) := by
  induction r generalizing a with
  | zero =>
    have hk : k = a := le_antisymm (by omega) hak
    subst hk
    simp [retryGo, hsucc]
  | succ r ih =>
    by_cases hk : k = a
    · subst hk
      simp [retryGo, hsucc]
    · obtain ⟨e, he⟩ := hfail a le_rfl (by omega)
      have h1 : retryGo op (a + 1) r = (Except.ok v, k - (a + 1) + 1) :=
        ih (a + 1) (by omega) (by omega)
          (fun i hi hik => hfail i (by omega) hik)
      rw [retryGo]
      simp only [he, h1]
      have : k - (a + 1) + 1 + 1 = k - a + 1 := by omega
      simp [this]

lemma retryGo_allfail (op : Nat → Except E A) (a r : Nat) (e : E)
    (hfail : ∀ i, a ≤ i → i < a + r → ∃ e0, op i = Except.error e0)
    (hlast : op (a + r) = Except.error e) :
    retryGo op a r = (Except.error e, r + 1) := by
  induction r generalizing a with
  | zero =>
    simp only [Nat.add_zero] at hlast
    simp [retryGo, hlast]
  | succ r ih =>
    obtain ⟨e0, he0⟩ := hfail a le_rfl (by omega)
    have h1 : retryGo op (a + 1) r = (Except.error e, r + 1) :=
      ih (a + 1) (fun i hi hik => hfail i (by omega) (by omega))
        (by have : a + 1 + r = a + (r + 1) := by omega
            rw [this]; exact hlast)
    rw [retryGo]
    simp [he0, h1]

lemma retryGoSite_default (op : Nat → Except E A) (a r : Nat) :
    retryGoSite op (fun _ _ => true) a r = retryGo op a r := by
  induction r generalizing a with
  | zero => rw [retryGoSite, retryGo]
  | succ r ih =>
    rw [retryGoSite, retryGo]
    cases op a with
    | ok v => rfl
    | error e => simp [ih]

/-- Failure of the whole retry means all attempts were consumed:
`retryGo` only reports an error after running all `rest + 1` attempts,
and the error it reports was thrown by the final attempt. -/
lemma retryGo_err (op : Nat → Except E A) (a r : Nat) (e : E)
    (h : (retryGo op a r).1 = Except.error e) :
    (retryGo op a r).2 = r + 1 ∧ op (a + r) = Except.error e := by
  induction r generalizing a with
  | zero =>
    rw [retryGo] at h ⊢
    cases hop : op a with
    | ok v => rw [hop] at h; exact absurd h (by simp)
    | error e0 =>
      rw [hop] at h
      simp only at h
      cases h
      exact ⟨rfl, by simpa using hop⟩
  | succ r ih =>
    rw [retryGo] at h ⊢
    cases hop : op a with
    | ok v => rw [hop] at h; exact absurd h (by simp)
    | error e0 =>
      rw [hop] at h
      simp only at h
      have := ih (a + 1) h
      refine ⟨by simp [this.1], ?_⟩
      have harith : a + 1 + r = a + (r + 1) := by omega
      rw [← harith]
      exact this.2

/-- C1.  For every operation and every `maxAttempts ≥ 1`: if the operation
fails on attempts `1..k-1` and succeeds on attempt `k ≤ maxAttempts`,
`RetryManager.retry` resolves with the success value and invokes the
operation exactly `k` times; if the operation fails on every attempt,
`retry` invokes it exactly `maxAttempts` times and then propagates the
final error.  Proved for the `src/content.js` implementation and for the
`src/lib/site-interaction.js` implementation under its default
`shouldRetry` predicate. -/
theorem retry_invocation_spec (E A : Type) (op : Nat → Except E A)
    (maxAttempts : Nat) (hmax : 1 ≤ maxAttempts) :
    (∀ k v, 1 ≤ k → k ≤ maxAttempts →
      (∀ i, 1 ≤ i → i < k → ∃ e, op i = Except.error e) →
      op k = Except.ok v →
      retryManagerRetry op maxAttempts = (JsResult.ok v, k) ∧
      siteRetry op (fun _ _ => true) maxAttempts = (JsResult.ok v, k)) ∧
    (∀ e, (∀ i, 1 ≤ i → i < maxAttempts → ∃ e0, op i = Except.error e0) →
      op maxAttempts = Except.error e →
      retryManagerRetry op maxAttempts = (JsResult.err e, maxAttempts) ∧
      siteRetry op (fun _ _ => true) maxAttempts = (JsResult.err e, maxAttempts)) := by
  obtain ⟨m, rfl⟩ : ∃ m, maxAttempts = m + 1 :=
    ⟨maxAttempts - 1, by omega⟩
  constructor
  · intro k v hk1 hkm hfail hsucc
    have hgo : retryGo op 1 m = (Except.ok v, k - 1 + 1) :=
      retryGo_succeeds op 1 m k v hk1 (by omega) hfail hsucc
    have hk : k - 1 + 1 = k := by omega
    rw [hk] at hgo
    constructor
    · simp [retryManagerRetry, hgo]
    · simp [siteRetry, retryGoSite_default, hgo]
  · intro e hfail hlast
    have hgo : retryGo op 1 m = (Except.error e, m + 1) :=
      retryGo_allfail op 1 m e
        (fun i hi him => hfail i hi (by omega))
        (by have : 1 + m = m + 1 := by omega
            rw [this]; exact hlast)
    constructor
    · simp [retryManagerRetry, hgo]
    · simp [siteRetry, retryGoSite_default, hgo]

/-- A sample operation for the C1 witness: fails on attempts 1 and 2 with
the attempt index as the error, succeeds on attempt 3 with value 42. -/
def retryOpWitness : Nat → Except Nat Nat :=
  fun i => if i < 3 then Except.error i else Except.ok 42

/-- An always-failing sample operation for the C1 witness. -/
def retryOpAllFail : Nat → Except Nat Nat :=
  fun i => Except.error i

/-- Witness for C1: with `maxAttempts = 5`, `retryOpWitness` resolves with
42 after exactly 3 invocations, and `retryOpAllFail` is invoked exactly 5
times and its attempt-5 error propagates. -/
theorem retry_invocation_spec_witness :
    retryManagerRetry retryOpWitness 5 = (JsResult.ok 42, 3) ∧
    retryManagerRetry retryOpAllFail 5 = (JsResult.err 5, 5) := by
  have h := retry_invocation_spec Nat Nat retryOpWitness 5 (by decide)
  have h2 := retry_invocation_spec Nat Nat retryOpAllFail 5 (by decide)
  refine ⟨(h.1 3 42 (by decide) (by decide) ?_ rfl).1,
          (h2.2 5 ?_ rfl).1⟩
  · intro i hi hik
    exact ⟨i, by simp [retryOpWitness]; omega⟩
  · intro i hi hik
    exact ⟨i, rfl⟩

/-! ## DOM model

A DOM subtree is the list of its elements in document order.  Only the
attributes the engine reads are modelled: `id` and `textContent`. -/

/-- A DOM element, reduced to the attributes the engine reads. -/
structure DomElem where
  id : String
  text : String
deriving DecidableEq, Repr

/-- A DOM subtree: its elements flattened in document order. -/
structure Container where
  elems : List DomElem
deriving DecidableEq, Repr

/-- Remove the first occurrence of the pattern `pat` from a character
list (the char-level core of JS `s.replace(pat, '')`). -/
def removeFirstSub (pat : List Char) : List Char → List Char
  | [] => []
  | a :: rest =>
    if pat.isPrefixOf (a :: rest) then (a :: rest).drop pat.length
    else a :: removeFirstSub pat rest

/-- JS `s.replace(pat, '')`: remove the first occurrence of `pat`.
Implemented on the character list so that it evaluates by `rfl`. -/
def replaceFirstOcc (s pat : String) : String :=
  ⟨removeFirstSub pat.data s.data⟩

/-- JS `s.startsWith(p)` (the semantics of the `[id^="p"]` selector). -/
def strStarts (s p : String) : Bool :=
  p.data.isPrefixOf s.data

/-- The JS whitespace characters relevant to this host's markup. -/
def isJsSpace (c : Char) : Bool :=
  c == ' ' || c == '\t' || c == '\n' || c == '\r'

/-- JS `s.trim()`: strip whitespace from both ends.  Implemented on the
character list so that it evaluates by `rfl`. -/
def jsTrim (s : String) : String :=
  ⟨((s.data.dropWhile isJsSpace).reverse.dropWhile isJsSpace).reverse⟩

/-- `container.querySelectorAll('[id^="p"]')`: all elements whose id
starts with `p`, in document order. -/
def selectAllIdStarts (c : Container) (p : String) : List DomElem :=
  c.elems.filter (fun e => strStarts e.id p)

/-- `container.querySelector('#i')`: the first element with id `i`. -/
def selectById (c : Container) (i : String) : Option DomElem :=
  (c.elems.filter (fun e => e.id == i)).head?

/-! ## ExtractionEngine: `extractListsFromDropdown` (src/content.js 384-414)

The function scans `span[id^="atwl-list-name-"]` within the container; for
each span it strips the id marker to obtain `listId`, skips ids already
seen (recording every processed id in the seen-set whether or not a record
is emitted), reads the trimmed display name, looks up the privacy span
`#atwl-list-privacy-<listId>`, and appends a record unless the name is
empty or equals the sentinel `'Create a List'`.  The record's `element`
field (a live node reference, dropped by `sendListsToSidebar` before the
records leave the content script) is not modelled. -/

/-- One extracted collection record (`element` field omitted, see above). -/
structure ListRec where
  id : String
  name : String
  privacy : String
deriving DecidableEq, Repr

/-- The stripped list id of a name span:
`nameElement.id.replace('atwl-list-name-', '')`. -/
def stripIdOf (e : DomElem) : String :=
  replaceFirstOcc e.id "atwl-list-name-"

/-- The privacy label of a list id:
`container.querySelector('#atwl-list-privacy-' + listId)`, trimmed text,
or `''` when the element is absent.  (The analogous
`#atwl-link-to-list-<id>` lookup only feeds the unmodelled `element`
field.) -/
def privTextOf (c : Container) (listId : String) : String :=
  match selectById c ("atwl-list-privacy-" ++ listId) with
  | some p => jsTrim p.text
  | none => ""

/-- The `forEach` body of `extractListsFromDropdown`.  State is the pair
(records so far, seen ids so far); a processed id enters the seen set even
when the name filter drops its record, exactly as `seenIds.add(listId)`
runs before the name check in the source. -/
def extractStep (c : Container) (st : List ListRec × List String)
    (nameElement : DomElem) : List ListRec × List String :=
  if stripIdOf nameElement ∈ st.2 then st
  else if jsTrim nameElement.text ≠ "" ∧ jsTrim nameElement.text ≠ "Create a List" then
    (st.1 ++ [⟨stripIdOf nameElement, jsTrim nameElement.text,
        privTextOf c (stripIdOf nameElement)⟩],
     stripIdOf nameElement :: st.2)
  else (st.1, stripIdOf nameElement :: st.2)

/-- `extractListsFromDropdown(container)`: the list of records parsed from
the container (the accompanying state update on `this.userLists` is
modelled separately by `extractListsUpdate`). -/
def extractListsFromDropdown (c : Container) : List ListRec :=
  ((selectAllIdStarts c "atwl-list-name-").foldl (extractStep c) ([], [])).1

/-- The span elements the primary strategy scans. -/
def primSpans (c : Container) : List DomElem :=
  selectAllIdStarts c "atwl-list-name-"

/-- The record a single name span contributes, or `none` when its trimmed
name is empty or the sentinel label. -/
def recOf (c : Container) (e : DomElem) : Option ListRec :=
  if jsTrim e.text ≠ "" ∧ jsTrim e.text ≠ "Create a List" then
    some ⟨stripIdOf e, jsTrim e.text, privTextOf c (stripIdOf e)⟩
  else none

/-- The subsequence of spans kept by the seen-id dedup: the first
occurrence of each stripped id, kept in document order. -/
def firstOccurrences : List DomElem → List String → List DomElem
  | [], _ => []
  | e :: rest, seen =>
    if stripIdOf e ∈ seen then firstOccurrences rest seen
    else e :: firstOccurrences rest (stripIdOf e :: seen)

lemma extract_foldl_eq (c : Container) :
    ∀ (l : List DomElem) (acc : List ListRec) (seen : List String),
    (l.foldl (extractStep c) (acc, seen)).1 =
      acc ++ (firstOccurrences l seen).filterMap (recOf c) := by
  intro l
  induction l with
  | nil => intro acc seen; simp [firstOccurrences]
  | cons e rest ih =>
    intro acc seen
    rw [List.foldl_cons, firstOccurrences]
    show ((rest.foldl (extractStep c) (extractStep c (acc, seen) e))).1 = _
    rw [extractStep]
    by_cases hseen : stripIdOf e ∈ seen
    · rw [if_pos hseen, if_pos hseen, ih acc seen]
    · rw [if_neg hseen, if_neg hseen]
      by_cases hname : jsTrim e.text ≠ "" ∧ jsTrim e.text ≠ "Create a List"
      · rw [if_pos hname, ih, List.filterMap_cons]
        have hrec : recOf c e =
            some ⟨stripIdOf e, jsTrim e.text, privTextOf c (stripIdOf e)⟩ := by
          rw [recOf, if_pos hname]
        rw [hrec]
        simp
      · rw [if_neg hname, ih, List.filterMap_cons]
        have hrec : recOf c e = none := by rw [recOf, if_neg hname]
        rw [hrec]

lemma firstOccurrences_sublist :
    ∀ (l : List DomElem) (seen : List String),
    (firstOccurrences l seen).Sublist l := by
  intro l
  induction l with
  | nil => intro seen; simp [firstOccurrences]
  | cons e rest ih =>
    intro seen
    rw [firstOccurrences]
    by_cases h : stripIdOf e ∈ seen
    · rw [if_pos h]
      exact (ih seen).cons e
    · rw [if_neg h]
      exact (ih (stripIdOf e :: seen)).cons₂ e

lemma firstOccurrences_fresh :
    ∀ (l : List DomElem) (seen : List String) (e : DomElem),
    e ∈ firstOccurrences l seen → stripIdOf e ∉ seen := by
  intro l
  induction l with
  | nil => intro seen e h; simp [firstOccurrences] at h
  | cons a rest ih =>
    intro seen e h
    rw [firstOccurrences] at h
    by_cases ha : stripIdOf a ∈ seen
    · rw [if_pos ha] at h
      exact ih seen e h
    · rw [if_neg ha] at h
      rcases List.mem_cons.mp h with h1 | h1
      · subst h1; exact ha
      · have := ih _ e h1
        intro hc
        exact this (List.mem_cons_of_mem _ hc)

lemma firstOccurrences_nodup :
    ∀ (l : List DomElem) (seen : List String),
    ((firstOccurrences l seen).map stripIdOf).Nodup := by
  intro l
  induction l with
  | nil => intro seen; simp [firstOccurrences]
  | cons a rest ih =>
    intro seen
    rw [firstOccurrences]
    by_cases ha : stripIdOf a ∈ seen
    · rw [if_pos ha]
      exact ih seen
    · rw [if_neg ha]
      rw [List.map_cons, List.nodup_cons]
      refine ⟨?_, ih _⟩
      intro hmem
      obtain ⟨e, he, heq⟩ := List.mem_map.mp hmem
      exact firstOccurrences_fresh rest (stripIdOf a :: seen) e he
        (by rw [heq]; exact List.mem_cons_self _ _)

lemma filterMap_recOf_ids_sublist (c : Container) :
    ∀ F : List DomElem,
    ((F.filterMap (recOf c)).map ListRec.id).Sublist (F.map stripIdOf) := by
  intro F
  induction F with
  | nil => simp
  | cons e rest ih =>
    rw [List.filterMap_cons, List.map_cons]
    cases hrec : recOf c e with
    | none => exact ih.cons _
    | some r =>
      have hid : r.id = stripIdOf e := by
        rw [recOf] at hrec
        split at hrec
        · cases hrec; rfl
        · cases hrec
      rw [List.map_cons, hid]
      exact ih.cons₂ _

lemma mem_filterMap_recOf (c : Container) (F : List DomElem) (r : ListRec)
    (h : r ∈ F.filterMap (recOf c)) :
    r.name ≠ "" ∧ r.name ≠ "Create a List" := by
  obtain ⟨e, _, hrec⟩ := List.mem_filterMap.mp h
  rw [recOf] at hrec
  split at hrec
  · cases hrec
    exact ‹jsTrim e.text ≠ "" ∧ jsTrim e.text ≠ "Create a List"›
  · cases hrec

/-- C2 (amended).  Every record list produced by one extraction run has
pairwise-distinct `id` values, no record whose trimmed name is empty or
equals the sentinel `'Create a List'` label, and equals the record list of
the first-occurrence subsequence of the scanned name spans — an
order-preserving sublist of the spans in DOM encounter order, containing
the first occurrence of each stripped id — so records appear in
first-occurrence DOM encounter order and the first occurrence of a
duplicated id wins.  (The claim's additional assertion that ids are
non-empty is refuted by `extract_empty_id_cex`.) -/
theorem extract_record_invariants (c : Container) :
    ((extractListsFromDropdown c).map ListRec.id).Nodup ∧
    (∀ r ∈ extractListsFromDropdown c,
      r.name ≠ "" ∧ r.name ≠ "Create a List") ∧
    extractListsFromDropdown c =
      (firstOccurrences (primSpans c) []).filterMap (recOf c) ∧
    (firstOccurrences (primSpans c) []).Sublist (primSpans c) := by
  have heq : extractListsFromDropdown c =
      (firstOccurrences (primSpans c) []).filterMap (recOf c) := by
    rw [extractListsFromDropdown]
    rw [extract_foldl_eq c (selectAllIdStarts c "atwl-list-name-") [] []]
    rfl
  refine ⟨?_, ?_, heq, firstOccurrences_sublist _ _⟩
  · rw [heq]
    exact (firstOccurrences_nodup (primSpans c) []).sublist
      (filterMap_recOf_ids_sublist c _)
  · intro r hr
    rw [heq] at hr
    exact mem_filterMap_recOf c _ r hr

/-- A dropdown overlay whose single name span has id exactly
`atwl-list-name-` (an empty id suffix) and a valid display name. -/
def emptyIdContainer : Container :=
  ⟨[⟨"atwl-list-name-", "My List"⟩]⟩

/-- Counterexample to C2 as stated: the extraction run over
`emptyIdContainer` produces a record whose `id` is the empty string —
the source checks the display name for truthiness but never checks that
the stripped id is non-empty. -/
theorem extract_empty_id_cex :
    extractListsFromDropdown emptyIdContainer = [⟨"", "My List", ""⟩] ∧
    ∃ r ∈ extractListsFromDropdown emptyIdContainer, r.id = "" := by
  constructor
  · rfl
  · exact ⟨⟨"", "My List", ""⟩, by rw [show extractListsFromDropdown
      emptyIdContainer = [⟨"", "My List", ""⟩] from rfl]; simp, rfl⟩

/-! ## C5: no secondary fallback strategy exists in the source

`extractListsFromDropdown` (src/content.js 384-414) consists solely of the
primary scan over `span[id^="atwl-list-name-"]`; no code path scans
dropdown-item containers when the primary yields zero records. -/

/-- Modelled from the spec (§4.5 and the C5 sources), which describe a
secondary strategy missing from src/content.js: "scan generic 'dropdown
item' containers, and within each locate a link whose identifier carries
the `id`, plus an inner name/privacy span pair; same dedup/sentinel rules
apply."  In this flat DOM model the links carrying the id are the
elements whose id begins with `atwl-link-to-list-`; the record's name is
the link's trimmed text and its privacy label comes from the privacy span
for that id.  This definition exists only to state the claim; it embeds
the spec's words, not any source code. -/
def specSecondaryStep (c : Container) (st : List ListRec × List String)
    (link : DomElem) : List ListRec × List String :=
  if replaceFirstOcc link.id "atwl-link-to-list-" ∈ st.2 then st
  else if jsTrim link.text ≠ "" ∧ jsTrim link.text ≠ "Create a List" then
    (st.1 ++ [⟨replaceFirstOcc link.id "atwl-link-to-list-", jsTrim link.text,
        privTextOf c (replaceFirstOcc link.id "atwl-link-to-list-")⟩],
     replaceFirstOcc link.id "atwl-link-to-list-" :: st.2)
  else (st.1, replaceFirstOcc link.id "atwl-link-to-list-" :: st.2)

/-- Modelled from the spec: the secondary extraction strategy itself. -/
def specSecondaryExtract (c : Container) : List ListRec :=
  ((selectAllIdStarts c "atwl-link-to-list-").foldl
    (specSecondaryStep c) ([], [])).1

/-- An overlay matched only by the secondary markup shape: a generic
dropdown-item container holding a link that carries the id, plus a
privacy span — and no `atwl-list-name-` span at all. -/
def secondaryOnlyContainer : Container :=
  ⟨[⟨"dd-item-1", "Birthday"⟩,
    ⟨"atwl-link-to-list-7", "Birthday"⟩,
    ⟨"atwl-list-privacy-7", "Private"⟩]⟩

/-- Counterexample to C5: on `secondaryOnlyContainer` the primary scan
finds no spans and the spec's secondary strategy would yield the Birthday
record, yet `extractListsFromDropdown` yields nothing — the source never
applies any fallback strategy. -/
theorem extract_no_fallback_cex :
    primSpans secondaryOnlyContainer = [] ∧
    specSecondaryExtract secondaryOnlyContainer =
      [⟨"7", "Birthday", "Private"⟩] ∧
    extractListsFromDropdown secondaryOnlyContainer = [] := by
  exact ⟨rfl, rfl, rfl⟩

/-- C5 (amended).  Extraction has only the primary strategy: whenever the
primary scan over `span[id^="atwl-list-name-"]` finds no name spans, the
run yields zero records, regardless of any dropdown-item markup present
in the overlay. -/
theorem extract_primary_only (c : Container)
    (h : primSpans c = []) : extractListsFromDropdown c = [] := by
  have h2 : selectAllIdStarts c "atwl-list-name-" = [] := h
  rw [extractListsFromDropdown, h2]
  rfl

/-- A container with dropdown-item markup only, for the C5 witness. -/
def fallbackWitnessContainer : Container :=
  ⟨[⟨"dd-item-2", "Gifts"⟩, ⟨"atwl-link-to-list-9", "Gifts"⟩]⟩

/-- Witness for C5 (amended): the witness container has no primary name
spans and extraction yields zero records there. -/
theorem extract_primary_only_witness :
    extractListsFromDropdown fallbackWitnessContainer = [] :=
  extract_primary_only fallbackWitnessContainer rfl

/-! ## C10: the stored snapshot is only replaced by a non-empty parse
(src/content.js 410-413) -/

/-- The content-script state that `extractListsFromDropdown` writes:
the `userLists` snapshot and whether `queueSendListsUpdate` has armed the
debounced sidebar update. -/
structure SnapshotState where
  userLists : List ListRec
  updateQueued : Bool
deriving DecidableEq, Repr

/-- The state-updating tail of `extractListsFromDropdown`:
`if (lists.length > 0) { this.userLists = lists; this.queueSendListsUpdate(); }`. -/
def extractListsUpdate (c : Container) (st : SnapshotState) : SnapshotState :=
  if (extractListsFromDropdown c).length > 0 then
    ⟨extractListsFromDropdown c, true⟩
  else st

/-- C10.  An extraction run that parses zero records leaves the stored
snapshot (and the pending-update flag) unchanged; a run that parses at
least one record replaces the snapshot with the parse and queues the
sidebar update. -/
theorem extract_snapshot_frame (c : Container) (st : SnapshotState) :
    (extractListsFromDropdown c = [] → extractListsUpdate c st = st) ∧
    (extractListsFromDropdown c ≠ [] →
      (extractListsUpdate c st).userLists = extractListsFromDropdown c ∧
      (extractListsUpdate c st).updateQueued = true) := by
  constructor
  · intro h
    rw [extractListsUpdate, h]
    simp
  · intro h
    rw [extractListsUpdate, if_pos]
    · exact ⟨rfl, rfl⟩
    · simpa [List.length_pos] using h

/-- Stored snapshot used by the C10 witness. -/
def snapshotW : SnapshotState := ⟨[⟨"9", "Old", ""⟩], false⟩

/-- A container holding one well-formed name span, for the C10 witness. -/
def goodContainer : Container := ⟨[⟨"atwl-list-name-5", "Groceries"⟩]⟩

/-- Witness for C10: an empty overlay leaves `snapshotW` untouched, and
`goodContainer`'s parse replaces it. -/
theorem extract_snapshot_frame_witness :
    extractListsUpdate ⟨[]⟩ snapshotW = snapshotW ∧
    (extractListsUpdate goodContainer snapshotW).userLists =
      extractListsFromDropdown goodContainer := by
  exact ⟨(extract_snapshot_frame ⟨[]⟩ snapshotW).1 rfl,
    ((extract_snapshot_frame goodContainer snapshotW).2 (by decide)).1⟩

/-! ## Page world and `openListDropdownAndWait` (src/content.js 331-382)

`PageW` bundles the page-level queries the engine performs and the
content-script state it reads and writes.  `HostEnv` is the host page's
reaction to the engine's gestures: `dismiss` is the page after the
body-click + Escape + 300ms pause of the force-reopen path, and
`reactClick i` is the page after the `i`-th trigger click and its 200ms
pause.  Each query field holds what the corresponding selector would
return at that moment (element identities are numbers; `subtree`
maps an overlay's identity to its DOM subtree). -/

/-- The page as seen and touched by the content script. -/
structure PageW where
  /-- `document.querySelector('.a-popover[aria-hidden="false"], #atwl-popover-inner')`
  — the fast-path "open overlay" query, also the first two alternatives of
  the click-loop query. -/
  fastOverlay : Option Nat
  /-- `document.querySelector('.a-dropdown[aria-hidden="false"]')` — the
  third alternative of the click-loop query only. -/
  dropOverlay : Option Nat
  /-- `findAddToListButton()` — the trigger element. -/
  addButton : Option Nat
  /-- The DOM subtree of each overlay identity. -/
  subtree : Nat → Container
  /-- The overlay search input's value (`none` = no input found). -/
  searchInputValue : Option String
  /-- The `als_list_filter` sessionStorage slot. -/
  savedFilter : Option String
  /-- `document.querySelector('#atwl-dd-create-list') !== null`. -/
  createLinkDoc : Bool
  /-- `this.persistDropdownSearch`. -/
  persistSetting : Bool
  /-- `this.userLists` and the pending-update flag. -/
  snapshot : SnapshotState
  /-- The page's current item context identifier (the product ASIN).  The
  add-to-list flow never reads it. -/
  asin : String
  /-- Whether the confirmation predicate of `waitForAddConfirmation`
  becomes true within its window after this attempt's list-link click. -/
  confirmed : Bool

/-- The host page's reactions to the engine's gestures. -/
structure HostEnv where
  dismiss : PageW → PageW
  reactClick : Nat → PageW → PageW

/-- The success tail of `openListDropdownAndWait`: after the 100ms pause,
`this.filterPersistence.clear()` empties the sessionStorage slot, then
`this.setListFilterValue(popover, '')` blanks the search field when an
input exists, then `this.extractListsFromDropdown(popover)` refreshes the
snapshot.  Note the clearing is unconditional — `persistSetting` is never
consulted here. -/
def openSuccessEffects (p : Nat) (w : PageW) : PageW :=
  let w2 := { w with savedFilter := none }
  let w3 := match w2.searchInputValue with
    | some _ => { w2 with searchInputValue := some "" }
    | none => w2
  { w3 with snapshot := extractListsUpdate (w3.subtree p) w3.snapshot }

/-- The click-repeat loop of `openListDropdownAndWait`: up to
`rem` further iterations starting at click index `i` with `elapsed`
milliseconds of pauses consumed.  Each iteration clicks the trigger,
pauses 200ms (the host reacts), polls the overlay query, and stops at the
first hit; after an unsuccessful poll the loop throws if the 5000ms
`POPOVER_WAIT_TIMEOUT_MS` deadline passed.  Returns the overlay, the page
afterwards, and the number of trigger clicks issued. -/
def clickLoop (env : HostEnv) :
    Nat → Nat → Nat → PageW → Except String (Nat × PageW × Nat)
  | 0, _, _, _ => Except.error "Dropdown did not open after multiple attempts"
  | Nat.succ rem, i, elapsed, w =>
    match (env.reactClick i w).fastOverlay.orElse
        (fun _ => (env.reactClick i w).dropOverlay) with
    | some p => Except.ok (p, env.reactClick i w, i + 1)
    | none =>
      if elapsed + 200 > 5000 then
        Except.error "Timeout waiting for dropdown to open"
      else clickLoop env rem (i + 1) (elapsed + 200) (env.reactClick i w)

/-- The shared tail of `openListDropdownAndWait` once the fast path is
bypassed: locate the trigger (failing fast when it is absent), run the
click-repeat loop, and apply the success effects. -/
def openCore (env : HostEnv) (w : PageW) :
    Except String (Nat × PageW × Nat) :=
  match w.addButton with
  | none => Except.error "Add-to-list dropdown button not found"
  | some _ =>
    match clickLoop env 10 0 0 w with
    | Except.error e => Except.error e
    | Except.ok (p, w2, n) => Except.ok (p, openSuccessEffects p w2, n)

/-- `openListDropdownAndWait(forceNew)`: return the already-open overlay
when one matches the fast-path query and `forceNew` is false; otherwise
dismiss the existing overlay when forcing, then locate the trigger and
run the click-repeat loop.  The returned triple also reports the final
page and how many trigger clicks were issued. -/
def openListDropdownAndWait (env : HostEnv) (w : PageW) (forceNew : Bool) :
    Except String (Nat × PageW × Nat) :=
  match w.fastOverlay, forceNew with
  | some p, false => Except.ok (p, w, 0)
  | some _, true => openCore env (env.dismiss w)
  | none, _ => openCore env w

/-- C6.  With `forceReopen` false and an overlay already matching the
fast-path "open" query, `openListDropdownAndWait` returns that overlay at
once, clicks the trigger zero times and leaves the page untouched; hence
a second call on the resulting page returns a handle to the same overlay
instance, again without clicking. -/
theorem open_fastpath_idempotent (env : HostEnv) (w : PageW) (p : Nat)
    (h : w.fastOverlay = some p) :
    openListDropdownAndWait env w false = Except.ok (p, w, 0) ∧
    (∀ q w2 n, openListDropdownAndWait env w false = Except.ok (q, w2, n) →
      n = 0 ∧ openListDropdownAndWait env w2 false = Except.ok (q, w2, 0)) := by
  have h1 : openListDropdownAndWait env w false = Except.ok (p, w, 0) := by
    simp only [openListDropdownAndWait, h]
  refine ⟨h1, ?_⟩
  intro q w2 n hq
  rw [h1] at hq
  simp only [Except.ok.injEq, Prod.mk.injEq] at hq
  obtain ⟨rfl, rfl, rfl⟩ := hq
  exact ⟨rfl, h1⟩

/-- Concrete page for the C6 witness: overlay 3 is already open. -/
def openIdemPage : PageW where
  fastOverlay := some 3
  dropOverlay := none
  addButton := some 0
  subtree := fun _ => ⟨[]⟩
  searchInputValue := none
  savedFilter := none
  createLinkDoc := false
  persistSetting := true
  snapshot := ⟨[], false⟩
  asin := "B000IDEM01"
  confirmed := false

/-- Inert host used by the C6 witness. -/
def openIdemEnv : HostEnv where
  dismiss := id
  reactClick := fun _ w => w

/-- Witness for C6 at the concrete already-open page: both successive
calls return overlay 3 with zero trigger clicks. -/
theorem open_fastpath_idempotent_witness :
    openListDropdownAndWait openIdemEnv openIdemPage false =
      Except.ok (3, openIdemPage, 0) ∧
    openListDropdownAndWait openIdemEnv openIdemPage false =
      Except.ok (3, openIdemPage, 0) ∧ (0 : Nat) = 0 := by
  have h := open_fastpath_idempotent openIdemEnv openIdemPage 3 rfl
  have h2 := h.2 3 openIdemPage 0 h.1
  exact ⟨h.1, h2.2, h2.1⟩

/-! ## C8: the opener wipes the filter regardless of the persist setting

The spec (§4.4 step 5, §4.7) and the repo's own `TODO.md` ("Content
honors persistence: clears filter immediately when OFF; restores when ON;
preserves across retries") describe a restore when the setting is on, but
`openListDropdownAndWait` (src/content.js 376-379) runs
`this.filterPersistence.clear(); this.setListFilterValue(popover, '')`
unconditionally; `FilterPersistence.restore` is never called in
src/content.js. -/

/-- The final page of a successful open, if any. -/
def openResultState (r : Except String (Nat × PageW × Nat)) : Option PageW :=
  match r with
  | Except.ok (_, w, _) => some w
  | Except.error _ => none

/-- Page for the C8 failing input: persist setting ON, saved filter text
present in both the store and the field, no overlay open yet. -/
def filterBugPage : PageW where
  fastOverlay := none
  dropOverlay := none
  addButton := some 0
  subtree := fun _ => ⟨[]⟩
  searchInputValue := some "headphones"
  savedFilter := some "headphones"
  createLinkDoc := false
  persistSetting := true
  snapshot := ⟨[], false⟩
  asin := "B000FILT01"
  confirmed := false

/-- Host for the C8 failing input: the first trigger click opens
overlay 1. -/
def filterBugEnv : HostEnv where
  dismiss := id
  reactClick := fun _ w => { w with fastOverlay := some 1 }

/-- C8 evaluated at the failing input: with the persistence setting
enabled and saved filter text `"headphones"`, a successful
`openListDropdownAndWait` still empties the persisted slot and blanks the
search field — the code clears unconditionally instead of restoring. -/
theorem open_wipes_filter_despite_persist :
    filterBugPage.persistSetting = true ∧
    filterBugPage.savedFilter = some "headphones" ∧
    filterBugPage.searchInputValue = some "headphones" ∧
    (openResultState
        (openListDropdownAndWait filterBugEnv filterBugPage false)).map
      (fun w => (w.savedFilter, w.searchInputValue)) =
      some (none, some "") := by
  exact ⟨rfl, rfl, rfl, rfl⟩

/-! ## `handleAddToListAction` (src/content.js 455-489)

One retry attempt of the add flow: open the dropdown (no force), look up
`#atwl-link-to-list-<listId>` inside the popover, re-extract and re-query
once when absent, click the link, optionally wipe the filter when the
persist setting is off, and await confirmation.  The whole attempt is
wrapped in `RetryManager.retry` with `maxAttempts = 10`.

The host may rewrite the page arbitrarily between attempts, so the
per-attempt page and host reactions are drawn from attempt-indexed
families `pages : Nat → PageW` and `envs : Nat → HostEnv`; this is a
superset of the reachable traces, so universally quantified theorems
cover every real trace.  The guard `if (!popover) throw 'Could not open
dropdown'` is dead — `openListDropdownAndWait` never resolves with a null
popover — so that error string is unreachable. -/

/-- One attempt of the add flow, returning the attempt's outcome and the
page it leaves behind.  When the link is missing, the in-attempt
re-extraction touches only the snapshot, so the re-query of the same
unchanged popover subtree fails again. -/
def attemptAdd (env : HostEnv) (w : PageW) (listId : String) :
    Except String Bool × PageW :=
  match openListDropdownAndWait env w false with
  | Except.error e => (Except.error e, w)
  | Except.ok (p, w2, _) =>
    match selectById (w2.subtree p) ("atwl-link-to-list-" ++ listId) with
    | none =>
      (Except.error "List element not found",
       { w2 with snapshot := extractListsUpdate (w2.subtree p) w2.snapshot })
    | some _ =>
      let w3 := if w2.persistSetting = false then
          { w2 with savedFilter := none,
                    searchInputValue := w2.searchInputValue.map (fun _ => "") }
        else w2
      if w2.confirmed then
        (Except.ok true,
         if w2.persistSetting = false then { w3 with savedFilter := none }
         else w3)
      else (Except.error "Confirmation not received", w3)

/-- `handleAddToListAction(listId)`: `RetryManager.retry` over the attempt
body with `CONFIG.INTERACTION.RETRY.MAX_ATTEMPTS = 10`, together with the
number of attempts consumed. -/
def handleAddToListAction (envs : Nat → HostEnv) (pages : Nat → PageW)
    (listId : String) : JsResult String Bool × Nat :=
  retryManagerRetry
    (fun attempt => (attemptAdd (envs attempt) (pages attempt) listId).1) 10

lemma clickLoop_err_catalogue (env : HostEnv) :
    ∀ (rem i elapsed : Nat) (w : PageW) (e : String),
    clickLoop env rem i elapsed w = Except.error e →
    e = "Dropdown did not open after multiple attempts" ∨
    e = "Timeout waiting for dropdown to open" := by
  intro rem
  induction rem with
  | zero =>
    intro i elapsed w e h
    rw [clickLoop] at h
    cases h
    exact Or.inl rfl
  | succ rem ih =>
    intro i elapsed w e h
    rw [clickLoop] at h
    cases hq : ((env.reactClick i w).fastOverlay.orElse
        (fun _ => (env.reactClick i w).dropOverlay)) with
    | some p => rw [hq] at h; cases h
    | none =>
      rw [hq] at h
      by_cases ht : elapsed + 200 > 5000
      · rw [if_pos ht] at h
        cases h
        exact Or.inr rfl
      · rw [if_neg ht] at h
        exact ih (i + 1) (elapsed + 200) (env.reactClick i w) e h

lemma openCore_err_catalogue (env : HostEnv) (w : PageW) (e : String)
    (h : openCore env w = Except.error e) :
    e = "Add-to-list dropdown button not found" ∨
    e = "Dropdown did not open after multiple attempts" ∨
    e = "Timeout waiting for dropdown to open" := by
  rw [openCore] at h
  cases hb : w.addButton with
  | none =>
    rw [hb] at h
    cases h
    exact Or.inl rfl
  | some b =>
    rw [hb] at h
    cases hc : clickLoop env 10 0 0 w with
    | error e2 =>
      rw [hc] at h
      cases h
      exact Or.inr (clickLoop_err_catalogue env 10 0 0 w e hc)
    | ok t =>
      rw [hc] at h
      obtain ⟨p, w2, n⟩ := t
      cases h

lemma open_err_catalogue (env : HostEnv) (w : PageW) (f : Bool)
    (e : String) (h : openListDropdownAndWait env w f = Except.error e) :
    e = "Add-to-list dropdown button not found" ∨
    e = "Dropdown did not open after multiple attempts" ∨
    e = "Timeout waiting for dropdown to open" := by
  rw [openListDropdownAndWait.eq_def] at h
  split at h
  · cases h
  · exact openCore_err_catalogue env (env.dismiss w) e h
  · exact openCore_err_catalogue env w e h

lemma attemptAdd_err_catalogue (env : HostEnv) (w : PageW)
    (listId : String) (e : String)
    (h : (attemptAdd env w listId).1 = Except.error e) :
    e = "Add-to-list dropdown button not found" ∨
    e = "Dropdown did not open after multiple attempts" ∨
    e = "Timeout waiting for dropdown to open" ∨
    e = "List element not found" ∨
    e = "Confirmation not received" := by
  rw [attemptAdd] at h
  cases ho : openListDropdownAndWait env w false with
  | error e2 =>
    rw [ho] at h
    simp only at h
    cases h
    exact (open_err_catalogue env w false e ho).imp id
      (fun h2 => h2.imp id Or.inl)
  | ok t =>
    rw [ho] at h
    obtain ⟨p, w2, n⟩ := t
    simp only at h
    cases hl : selectById (w2.subtree p) ("atwl-link-to-list-" ++ listId) with
    | none =>
      rw [hl] at h
      cases h
      exact Or.inr (Or.inr (Or.inr (Or.inl rfl)))
    | some l =>
      rw [hl] at h
      cases hc : w2.confirmed with
      | true =>
        simp only [hc, if_true] at h
        cases h
      | false =>
        simp only [hc, Bool.false_eq_true, if_false] at h
        cases h
        exact Or.inr (Or.inr (Or.inr (Or.inr rfl)))

/-- C3 (amended).  The add-to-collection retry loop performs no item
context check: whenever the flow fails, every one of the 10 retry
attempts has been consumed — no matter how the page (its `asin`
included) changed mid-flow — and the failure reason is one of the
attempt-level errors; it is never `"NavigationDuringAction"`. -/
theorem addFlow_no_navigation_abort (envs : Nat → HostEnv)
    (pages : Nat → PageW) (listId : String) (e : String)
    (h : (handleAddToListAction envs pages listId).1 = JsResult.err e) :
    e ≠ "NavigationDuringAction" ∧
    (handleAddToListAction envs pages listId).2 = 10 := by
  rw [handleAddToListAction, retryManagerRetry] at h ⊢
  cases hgo : retryGo
      (fun attempt => (attemptAdd (envs attempt) (pages attempt) listId).1)
      1 9 with
  | mk r n =>
    rw [hgo] at h
    cases r with
    | ok v => simp at h
    | error e2 =>
      simp only [JsResult.err.injEq] at h
      subst h
      have herr := retryGo_err
        (fun attempt => (attemptAdd (envs attempt) (pages attempt) listId).1)
        1 9 e2 (by rw [hgo])
      have hcat := attemptAdd_err_catalogue (envs 10) (pages 10) listId e2
        (by simpa using herr.2)
      constructor
      · rcases hcat with h1 | h1 | h1 | h1 | h1 <;> (subst h1; decide)
      · have hn : n = 10 := by
          have h9 := herr.1
          rw [hgo] at h9
          simpa using h9
        simp [hn]

/-- Pages for the C3 counterexample: the overlay is open but the
requested list's link never exists, and the item context identifier
changes between attempt 1 and attempt 2, simulating a navigation during
the retry loop. -/
def navPages : Nat → PageW := fun i =>
  { fastOverlay := some 1
    dropOverlay := none
    addButton := some 0
    subtree := fun _ => ⟨[]⟩
    searchInputValue := none
    savedFilter := none
    createLinkDoc := false
    persistSetting := true
    snapshot := ⟨[], false⟩
    asin := if i ≤ 1 then "B000000001" else "B000000002"
    confirmed := false }

/-- Inert host for the C3 counterexample. -/
def navEnv : HostEnv where
  dismiss := id
  reactClick := fun _ w => w

/-- Counterexample to C3 as stated: the item context identifier changes
between attempt 1 and attempt 2, yet the flow neither aborts nor reports
`"NavigationDuringAction"` — it consumes all 10 attempts and fails with
the ordinary `"List element not found"` error. -/
theorem addFlow_navigation_cex :
    (navPages 1).asin ≠ (navPages 2).asin ∧
    handleAddToListAction (fun _ => navEnv) navPages "42" =
      (JsResult.err "List element not found", 10) := by
  exact ⟨by decide, rfl⟩

/-- Pages for the C3 witness: the link exists but confirmation never
arrives, so every attempt fails with `"Confirmation not received"`. -/
def confFailPages : Nat → PageW := fun _ =>
  { fastOverlay := some 1
    dropOverlay := none
    addButton := some 0
    subtree := fun _ => ⟨[⟨"atwl-link-to-list-42", "Birthday"⟩]⟩
    searchInputValue := none
    savedFilter := none
    createLinkDoc := false
    persistSetting := true
    snapshot := ⟨[], false⟩
    asin := "B000000003"
    confirmed := false }

/-- Inert host for the C3 witness. -/
def confFailEnv : HostEnv where
  dismiss := id
  reactClick := fun _ w => w

/-- Witness for C3 (amended), discharging its hypothesis at an always
unconfirmed run: the failure reason differs from
`"NavigationDuringAction"` and all 10 attempts were consumed. -/
theorem addFlow_no_navigation_abort_witness :
    ("Confirmation not received" : String) ≠ "NavigationDuringAction" ∧
    (handleAddToListAction (fun _ => confFailEnv) confFailPages "42").2 = 10 := by
  have h := addFlow_no_navigation_abort (fun _ => confFailEnv) confFailPages
    "42" "Confirmation not received" rfl
  exact ⟨h.1, h.2⟩

/-! ## `ElementFinder.waitFor` settlement
(src/content.js 81-109 and src/lib/site-interaction.js 68-111)

Both versions run `check()` once immediately and again on every mutation
notification; `check` resolves when the element is found and the
condition holds, and rejects when `Date.now() - start >= timeout`.  A
`setTimeout` fires at `timeout` ms: in src/lib it disconnects the
observer **and rejects**; in src/content.js it only disconnects.

Deterministic event model: `find t` says whether `this.find` +
`condition` succeed at time `t` (ms since the call); `muts` lists the
mutation-notification times.  Mutations at or after the `timeout` mark
are never observed (by then the timer has disconnected the observer), so
the processed check times are `0 :: muts.filter (· < timeout)`, in order.
A check at `t < timeout` can only resolve; the initial check can reject
only when `timeout = 0`.  `runChecks` returns how the check sequence
settles the promise, or `pending` when no check settles it. -/

/-- How (or whether) a `waitFor` promise settles. -/
inductive Settle where
  | resolved
  | rejectedTimeout
  | pending
deriving DecidableEq, Repr

/-- Run the `check()` callback at each time in the list, in order. -/
def runChecks (find : Nat → Bool) (timeout : Nat) : List Nat → Settle
  | [] => Settle.pending
  | t :: rest =>
    if find t then Settle.resolved
    else if t ≥ timeout then Settle.rejectedTimeout
    else runChecks find timeout rest

/-- `waitFor` of src/content.js: when every check falls through, the
timeout timer only disconnects the observer — nothing ever rejects, and
the promise stays pending. -/
def contentWaitFor (find : Nat → Bool) (muts : List Nat) (timeout : Nat) :
    Settle :=
  runChecks find timeout (0 :: muts.filter (fun t => t < timeout))

/-- `waitFor` of src/lib/site-interaction.js: identical, except the
timeout timer rejects after disconnecting, so a run in which no check
settled is rejected at the deadline. -/
def siteWaitFor (find : Nat → Bool) (muts : List Nat) (timeout : Nat) :
    Settle :=
  match runChecks find timeout (0 :: muts.filter (fun t => t < timeout)) with
  | Settle.pending => Settle.rejectedTimeout
  | s => s

/-- The src/lib revision always settles, as C4 demands. -/
lemma siteWaitFor_settles (find : Nat → Bool) (muts : List Nat)
    (timeout : Nat) : siteWaitFor find muts timeout ≠ Settle.pending := by
  rw [siteWaitFor]
  cases runChecks find timeout (0 :: muts.filter (fun t => t < timeout)) <;>
    simp

/-- C4 evaluated at the failing input: an element that never appears and
a page that emits no mutation notification after the call.  The
src/content.js `waitFor` promise never settles — its timeout timer only
disconnects the observer without rejecting — while the
src/lib/site-interaction.js revision of the very same function rejects at
the 3000ms deadline as the claim requires. -/
theorem contentWaitFor_hangs :
    contentWaitFor (fun _ => false) [] 3000 = Settle.pending ∧
    siteWaitFor (fun _ => false) [] 3000 = Settle.rejectedTimeout := by
  exact ⟨rfl, rfl⟩

/-! ## `EventSimulator.click` (src/content.js 113-131) and
`EventSimulator._performClick` (src/lib/site-interaction.js 142-172)

Both dispatch synthetic events built from
`{ bubbles: true, cancelable: true, view: window, buttons: 1 }`.  The
dispatch sequence is modelled as the list of performed actions. -/

/-- The option bag every dispatched event is built from (`view` carries
no information in this model). -/
structure EvOpts where
  bubbles : Bool
  cancelable : Bool
  buttons : Nat
deriving DecidableEq, Repr

/-- The synthetic event types the simulators dispatch. -/
inductive EvName where
  | pointerover
  | pointerdown
  | pointerup
  | mouseover
  | mousedown
  | mouseup
  | click
deriving DecidableEq, Repr

/-- One observable action of a click simulation. -/
inductive GestureAct where
  | scrollIntoView
  | dispatch (name : EvName) (opts : EvOpts)
deriving DecidableEq, Repr

/-- `{ bubbles: true, cancelable: true, view: window, buttons: 1 }`. -/
def clickOpts : EvOpts := ⟨true, true, 1⟩

/-- The action sequence of `EventSimulator.click` (src/content.js) on a
non-null element: scroll into view, then the three pointer events when
the runtime supports `PointerEvent`, then the four mouse events. -/
def contentClickActs (pointerSupported : Bool) : List GestureAct :=
  [GestureAct.scrollIntoView] ++
  (if pointerSupported then
    [GestureAct.dispatch EvName.pointerover clickOpts,
     GestureAct.dispatch EvName.pointerdown clickOpts,
     GestureAct.dispatch EvName.pointerup clickOpts]
  else []) ++
  [GestureAct.dispatch EvName.mouseover clickOpts,
   GestureAct.dispatch EvName.mousedown clickOpts,
   GestureAct.dispatch EvName.mouseup clickOpts,
   GestureAct.dispatch EvName.click clickOpts]

/-- `EventSimulator.click` returns `false` and performs nothing when the
element is null. -/
def contentClick (elementPresent pointerSupported : Bool) :
    Bool × List GestureAct :=
  if elementPresent then (true, contentClickActs pointerSupported)
  else (false, [])

/-- The dispatch sequence of `EventSimulator._performClick`
(src/lib/site-interaction.js): the hover block (pointerover when enabled
and supported, then mouseover), then pointerdown/pointerup when enabled
and supported, then mousedown, mouseup, click. -/
def sitePerformClickActs
    (usePointerEvents simulateHover pointerSupported : Bool) :
    List GestureAct :=
  (if simulateHover then
    (if usePointerEvents && pointerSupported then
      [GestureAct.dispatch EvName.pointerover clickOpts]
    else []) ++
    [GestureAct.dispatch EvName.mouseover clickOpts]
  else []) ++
  (if usePointerEvents && pointerSupported then
    [GestureAct.dispatch EvName.pointerdown clickOpts,
     GestureAct.dispatch EvName.pointerup clickOpts]
  else []) ++
  [GestureAct.dispatch EvName.mousedown clickOpts,
   GestureAct.dispatch EvName.mouseup clickOpts,
   GestureAct.dispatch EvName.click clickOpts]

/-- `EventSimulator.click` of src/lib with default options
(`usePointerEvents` and `simulateHover` on, `scrollIntoView` not
disabled, zero delay): scroll into view, then `_performClick`. -/
def siteClickActs (pointerSupported : Bool) : List GestureAct :=
  GestureAct.scrollIntoView ::
    sitePerformClickActs true true pointerSupported

/-- The order C7 claims, built from the claim's words: pointer-enter,
mouse-enter, pointer-down, mouse-down, pointer-up, mouse-up, click, with
pointer events present only when supported.  This definition follows the
claim, not the source, and exists to be compared against the source's
sequences. -/
def claimedClickActs (pointerSupported : Bool) : List GestureAct :=
  [GestureAct.scrollIntoView] ++
  (if pointerSupported then
    [GestureAct.dispatch EvName.pointerover clickOpts] else []) ++
  [GestureAct.dispatch EvName.mouseover clickOpts] ++
  (if pointerSupported then
    [GestureAct.dispatch EvName.pointerdown clickOpts] else []) ++
  [GestureAct.dispatch EvName.mousedown clickOpts] ++
  (if pointerSupported then
    [GestureAct.dispatch EvName.pointerup clickOpts] else []) ++
  [GestureAct.dispatch EvName.mouseup clickOpts,
   GestureAct.dispatch EvName.click clickOpts]

/-- Counterexample to C7 as stated: with `PointerEvent` supported,
neither implementation dispatches in the claimed interleaved order —
src/content.js issues all three pointer events before any mouse event,
and src/lib issues pointerdown/pointerup before mousedown. -/
theorem click_order_cex :
    contentClickActs true ≠ claimedClickActs true ∧
    siteClickActs true ≠ claimedClickActs true := by
  exact ⟨by decide, by decide⟩

/-- C7 (amended).  On a non-null node both simulators scroll it into
view and then dispatch, every event bubbling, cancelable and with
`buttons = 1`: src/content.js dispatches pointerover, pointerdown,
pointerup (only when `PointerEvent` is supported) and then always
mouseover, mousedown, mouseup, click; src/lib dispatches pointerover,
mouseover, pointerdown, pointerup (pointer ones only when supported) and
then always mousedown, mouseup, click. -/
theorem click_event_order :
    contentClick true true =
      (true,
       [GestureAct.scrollIntoView,
        GestureAct.dispatch EvName.pointerover ⟨true, true, 1⟩,
        GestureAct.dispatch EvName.pointerdown ⟨true, true, 1⟩,
        GestureAct.dispatch EvName.pointerup ⟨true, true, 1⟩,
        GestureAct.dispatch EvName.mouseover ⟨true, true, 1⟩,
        GestureAct.dispatch EvName.mousedown ⟨true, true, 1⟩,
        GestureAct.dispatch EvName.mouseup ⟨true, true, 1⟩,
        GestureAct.dispatch EvName.click ⟨true, true, 1⟩]) ∧
    contentClick true false =
      (true,
       [GestureAct.scrollIntoView,
        GestureAct.dispatch EvName.mouseover ⟨true, true, 1⟩,
        GestureAct.dispatch EvName.mousedown ⟨true, true, 1⟩,
        GestureAct.dispatch EvName.mouseup ⟨true, true, 1⟩,
        GestureAct.dispatch EvName.click ⟨true, true, 1⟩]) ∧
    siteClickActs true =
      [GestureAct.scrollIntoView,
       GestureAct.dispatch EvName.pointerover ⟨true, true, 1⟩,
       GestureAct.dispatch EvName.mouseover ⟨true, true, 1⟩,
       GestureAct.dispatch EvName.pointerdown ⟨true, true, 1⟩,
       GestureAct.dispatch EvName.pointerup ⟨true, true, 1⟩,
       GestureAct.dispatch EvName.mousedown ⟨true, true, 1⟩,
       GestureAct.dispatch EvName.mouseup ⟨true, true, 1⟩,
       GestureAct.dispatch EvName.click ⟨true, true, 1⟩] ∧
    siteClickActs false =
      [GestureAct.scrollIntoView,
       GestureAct.dispatch EvName.mouseover ⟨true, true, 1⟩,
       GestureAct.dispatch EvName.mousedown ⟨true, true, 1⟩,
       GestureAct.dispatch EvName.mouseup ⟨true, true, 1⟩,
       GestureAct.dispatch EvName.click ⟨true, true, 1⟩] ∧
    contentClick false true = (false, []) := by
  exact ⟨rfl, rfl, rfl, rfl, rfl⟩

/-! ## `createNewList` (src/content.js 608-733)

One retry attempt: close any existing dropdown, force-open a fresh one,
wait 300ms, locate `#atwl-dd-create-list` (document first, then inside
the dropdown), click it up to 10 times until the create modal is present
with `aria-hidden !== 'true'`, wait 500ms, locate `#list-name`, set its
value with up to 3 verify-and-retry rounds, locate the create button,
click it once, wait, and re-extract the popover.  The whole attempt runs
under `RetryManager.retry` with `maxAttempts = 3`, and a final `.catch`
converts any propagated error into `{success:false, error}`.

The attempt can still fail *after* the submit click: the post-submit
re-extraction (line 722, `this.extractListsFromDropdown(popover)`) is the
one extraction call site not wrapped in try/catch (unlike lines 557 and
567), and inside it line 396 runs
`container.querySelector('#atwl-link-to-list-' + listId)` with `listId`
interpolated from a host-controlled span id.  When that id does not form
a valid CSS identifier the selector is invalid and `querySelector`
throws a SyntaxError, rejecting the attempt after the submit click —
whereupon the retry reruns the whole flow and clicks submit again.  The
model below therefore gives the post-click tail its fallible semantics.

Host reactions are environment functions on the held modal node's view
(the code keeps the node reference, so its content is followed even
across document changes). -/

/-- Characters of a CSS identifier, as relevant to the interpolated
`#atwl-link-to-list-<listId>` selectors: ASCII alphanumerics, `-` and
`_`.  This is a conservative model of the CSS ident grammar — what the
proofs rely on is only that alphanumeric/hyphen ids are valid and that a
metacharacter such as `(` makes `querySelector` throw, both true of real
CSS. -/
def cssIdentChar (ch : Char) : Bool :=
  ch.isAlphanum || ch == '-' || ch == '_'

/-- Whether appending `s` to the valid prefix `atwl-link-to-list-` still
yields a valid id selector. -/
def validCssIdent (s : String) : Bool :=
  s.data.all cssIdentChar

/-- The throwing-aware model of the `forEach` body of
`extractListsFromDropdown`: identical to `extractStep`, except that a
fresh (not-yet-seen) id whose stripped value is not a valid CSS
identifier makes the line-396 `querySelector` throw, aborting the whole
run.  Ids already seen return before any query and cannot throw. -/
def extractStepT (c : Container)
    (st : Except String (List ListRec × List String))
    (nameElement : DomElem) : Except String (List ListRec × List String) :=
  match st with
  | Except.error e => Except.error e
  | Except.ok s =>
    if stripIdOf nameElement ∈ s.2 then Except.ok s
    else if validCssIdent (stripIdOf nameElement) = false then
      Except.error "SyntaxError: invalid selector"
    else if jsTrim nameElement.text ≠ "" ∧
        jsTrim nameElement.text ≠ "Create a List" then
      Except.ok (s.1 ++ [⟨stripIdOf nameElement, jsTrim nameElement.text,
          privTextOf c (stripIdOf nameElement)⟩],
        stripIdOf nameElement :: s.2)
    else Except.ok (s.1, stripIdOf nameElement :: s.2)

/-- The throwing-aware model of `extractListsFromDropdown`: the thrown
SyntaxError when some fresh stripped id forms an invalid selector,
otherwise the same records as `extractListsFromDropdown` (which models
the non-throwing runs; `extractT_agrees_extract` below proves the two
agree whenever every fresh id is a valid identifier). -/
def extractListsFromDropdownT (c : Container) :
    Except String (List ListRec) :=
  match (primSpans c).foldl (extractStepT c) (Except.ok ([], [])) with
  | Except.ok st => Except.ok st.1
  | Except.error e => Except.error e

lemma extractStepT_foldl_agrees (c : Container) :
    ∀ (l : List DomElem) (acc : List ListRec) (seen : List String),
    (∀ e ∈ firstOccurrences l seen, validCssIdent (stripIdOf e) = true) →
    l.foldl (extractStepT c) (Except.ok (acc, seen)) =
      Except.ok (l.foldl (extractStep c) (acc, seen)) := by
  intro l
  induction l with
  | nil => intro acc seen h; rfl
  | cons e rest ih =>
    intro acc seen h
    rw [List.foldl_cons, List.foldl_cons]
    by_cases hseen : stripIdOf e ∈ seen
    · have h1 : extractStepT c (Except.ok (acc, seen)) e =
          Except.ok (acc, seen) := by
        rw [extractStepT]
        simp only [if_pos hseen]
      have h2 : extractStep c (acc, seen) e = (acc, seen) := by
        rw [extractStep, if_pos hseen]
      rw [h1, h2]
      refine ih acc seen (fun e2 he2 => h e2 ?_)
      rw [firstOccurrences, if_pos hseen]
      exact he2
    · have hvalid : validCssIdent (stripIdOf e) = true := by
        refine h e ?_
        rw [firstOccurrences, if_neg hseen]
        exact List.mem_cons_self _ _
      have hrest : ∀ e2 ∈ firstOccurrences rest (stripIdOf e :: seen),
          validCssIdent (stripIdOf e2) = true := by
        intro e2 he2
        refine h e2 ?_
        rw [firstOccurrences, if_neg hseen]
        exact List.mem_cons_of_mem _ he2
      by_cases hname : jsTrim e.text ≠ "" ∧ jsTrim e.text ≠ "Create a List"
      · have h1 : extractStepT c (Except.ok (acc, seen)) e =
            Except.ok (acc ++ [⟨stripIdOf e, jsTrim e.text,
              privTextOf c (stripIdOf e)⟩], stripIdOf e :: seen) := by
          rw [extractStepT]
          simp only [if_neg hseen, hvalid, Bool.true_eq_false, if_neg,
            not_false_iff, if_pos hname]
        have h2 : extractStep c (acc, seen) e =
            (acc ++ [⟨stripIdOf e, jsTrim e.text,
              privTextOf c (stripIdOf e)⟩], stripIdOf e :: seen) := by
          rw [extractStep, if_neg hseen, if_pos hname]
        rw [h1, h2]
        exact ih _ _ hrest
      · have h1 : extractStepT c (Except.ok (acc, seen)) e =
            Except.ok (acc, stripIdOf e :: seen) := by
          rw [extractStepT]
          simp only [if_neg hseen, hvalid, Bool.true_eq_false, if_neg,
            not_false_iff, if_neg hname]
        have h2 : extractStep c (acc, seen) e = (acc, stripIdOf e :: seen) := by
          rw [extractStep, if_neg hseen, if_neg hname]
        rw [h1, h2]
        exact ih _ _ hrest

/-- On markup whose fresh stripped ids are all valid CSS identifiers —
every well-formed host overlay — the throwing-aware extraction model
agrees with the non-throwing one used for C2, C5 and C10. -/
lemma extractT_agrees_extract (c : Container)
    (h : ∀ e ∈ firstOccurrences (primSpans c) [],
      validCssIdent (stripIdOf e) = true) :
    extractListsFromDropdownT c =
      Except.ok (extractListsFromDropdown c) := by
  rw [extractListsFromDropdownT,
    extractStepT_foldl_agrees c (primSpans c) [] [] h]
  rfl

/-- The create-list modal node as the attempt reads it. -/
structure ModalView where
  /-- `modal.getAttribute('aria-hidden')`. -/
  ariaHidden : Option String
  /-- `modal.querySelector('#list-name') !== null`. -/
  nameInputFound : Bool
  /-- The name input's current value. -/
  inputValue : String
  /-- Whether any of the three create-button selectors matches. -/
  createButtonFound : Bool
deriving DecidableEq, Repr

/-- The environment of one `createNewList` attempt: the page at the
attempt's start, the host's reactions to the engine's gestures and
pauses. -/
structure CreateEnv where
  /-- The page when the attempt begins. -/
  page : PageW
  /-- Host reactions inside `openListDropdownAndWait`. -/
  env : HostEnv
  /-- Reaction to the pre-close body click + Escape + 500ms pause. -/
  preDismiss : PageW → PageW
  /-- Reaction to the 300ms render pause after the open. -/
  settle1 : PageW → PageW
  /-- The modal query result after the `i`-th create-link click and its
  200ms pause. -/
  modalAfterClick : Nat → Option ModalView
  /-- Reaction of the held modal node to the 500ms render pause. -/
  modalSettle : ModalView → ModalView
  /-- Host reaction to round `k` of the set-name loop (events dispatched
  on the input, then the 100ms pause), applied after our value write. -/
  nameReact : Nat → ModalView → ModalView
  /-- The result of the post-submit popover query (line 719,
  `'.a-popover[aria-hidden="false"]' || '#atwl-popover-inner'`) after the
  submit click, the 3000ms wait and the possible extra 2000ms wait:
  `none` when no popover matches, otherwise the queried popover's
  subtree. -/
  postPopover : Option Container

/-- The create-link click loop: up to `rem` more clicks from index `i`;
breaks at the first query returning a modal whose `aria-hidden` is not
`'true'`.  When the loop completes without breaking, the post-loop guard
throws, which `none` encodes. -/
def modalLoop (ae : CreateEnv) : Nat → Nat → Option ModalView
  | 0, _ => none
  | Nat.succ rem, i =>
    match ae.modalAfterClick i with
    | some m =>
      if m.ariaHidden ≠ some "true" then some m
      else modalLoop ae rem (i + 1)
    | none => modalLoop ae rem (i + 1)

/-- The set-name loop: up to `rem` more rounds from index `k`.  Each
round writes `listName` into the input, dispatches the event volley (the
host may react), pauses, and breaks when the value verifiably stuck. -/
def nameLoop (ae : CreateEnv) (listName : String) :
    Nat → Nat → ModalView → ModalView
  | 0, _, m => m
  | Nat.succ rem, k, m =>
    if (ae.nameReact k { m with inputValue := listName }).inputValue ==
        listName then
      ae.nameReact k { m with inputValue := listName }
    else nameLoop ae listName rem (k + 1)
      (ae.nameReact k { m with inputValue := listName })

/-- One attempt of `createNewList`, returning the outcome and the number
of submit-button clicks it issued.  The `if (!dropdown)` guard is dead
(`openListDropdownAndWait` never resolves null), so open failures
propagate with their own messages.  After the submit click (counted even
when the attempt later fails) the `modalStillOpen` probe only adds a
wait, and the unguarded post-submit re-extraction runs on the queried
popover when one exists: when it throws, the attempt is rejected *after*
having submitted; its snapshot side effect on a success dies with the
discarded per-attempt page. -/
def createAttempt (ae : CreateEnv) (listName : String) :
    Except String Unit × Nat :=
  match openListDropdownAndWait ae.env
      (if ae.page.fastOverlay.isSome then ae.preDismiss ae.page else ae.page)
      true with
  | Except.error e => (Except.error e, 0)
  | Except.ok (p, w2, _) =>
    if (ae.settle1 w2).createLinkDoc = false ∧
        (selectById ((ae.settle1 w2).subtree p) "atwl-dd-create-list").isNone
    then (Except.error "Could not find Create List link", 0)
    else
      match modalLoop ae 10 0 with
      | none =>
        (Except.error "Create list modal did not appear after multiple attempts", 0)
      | some m =>
        if (ae.modalSettle m).nameInputFound = false then
          (Except.error "Could not find list name input", 0)
        else if (nameLoop ae listName 3 0 (ae.modalSettle m)).inputValue ≠
            listName then
          (Except.error "Could not set list name in input field", 0)
        else if (nameLoop ae listName 3 0
            (ae.modalSettle m)).createButtonFound = false then
          (Except.error "Could not find create button", 0)
        else
          match ae.postPopover with
          | none => (Except.ok (), 1)
          | some pc =>
            match extractListsFromDropdownT pc with
            | Except.error e => (Except.error e, 1)
            | Except.ok _ => (Except.ok (), 1)

/-- The retry loop around `createAttempt`, also accumulating the total
number of submit-button clicks across attempts. -/
def createRetryGo (aenvs : Nat → CreateEnv) (listName : String) :
    Nat → Nat → Except String Unit × Nat × Nat
  | attempt, rest =>
    match createAttempt (aenvs attempt) listName with
    | (Except.ok v, c) => (Except.ok v, 1, c)
    | (Except.error e, c) =>
      match rest with
      | 0 => (Except.error e, 1, c)
      | Nat.succ r =>
        let p := createRetryGo aenvs listName (attempt + 1) r
        (p.1, p.2.1 + 1, c + p.2.2)

/-- The serializable result `createNewList` resolves with. -/
structure CreateResult where
  success : Bool
  error : Option String
deriving DecidableEq, Repr

/-- `createNewList(listName)`: the retry loop with `maxAttempts = 3`,
whose propagated error the final `.catch` converts into a failure
result.  Also reports the attempts consumed and the total submit-button
clicks. -/
def createNewList (aenvs : Nat → CreateEnv) (listName : String) :
    CreateResult × Nat × Nat :=
  match createRetryGo aenvs listName 1 2 with
  | (Except.ok _, n, c) => (⟨true, none⟩, n, c)
  | (Except.error e, n, c) => (⟨false, some e⟩, n, c)

/-- Each single attempt clicks the submit button at most once — the
source's line-705 comment ("Click the create button only ONCE to avoid
creating multiple lists") holds per attempt.  What the retry loop breaks
is the across-attempts total, shown by `createNewList_resubmit_bug`. -/
lemma createAttempt_submit_le_one (ae : CreateEnv) (listName : String) :
    (createAttempt ae listName).2 ≤ 1 := by
  rw [createAttempt.eq_def]
  repeat' split
  all_goals simp

/-- The page of the every-stage-succeeds run used by the C9 failing
input. -/
def createBugPage : PageW where
  fastOverlay := none
  dropOverlay := none
  addButton := some 0
  subtree := fun _ => ⟨[]⟩
  searchInputValue := none
  savedFilter := none
  createLinkDoc := true
  persistSetting := true
  snapshot := ⟨[], false⟩
  asin := "B000CREATE"
  confirmed := false

/-- The C9 failing input: every stage up to and including the submit
click succeeds on each attempt, and the post-submit popover holds a name
span whose id `atwl-list-name-bad(id` strips to `bad(id` — the `(` makes
the interpolated line-396 selector invalid, so the unguarded post-submit
re-extraction throws after the submit click. -/
def createBugEnv : CreateEnv where
  page := createBugPage
  env :=
    { dismiss := id
      reactClick := fun _ w => { w with fastOverlay := some 1 } }
  preDismiss := id
  settle1 := id
  modalAfterClick := fun _ => some ⟨none, true, "", true⟩
  modalSettle := id
  nameReact := fun _ m => m
  postPopover := some ⟨[⟨"atwl-list-name-bad(id", "Bad List"⟩]⟩

/-- C9 evaluated at the failing input.  The claim — the submit button is
clicked at most once per `createNewList` invocation, so an invocation can
never cause duplicate list creation — is the code's own documented intent
(line 705) but does not hold: on `createBugEnv` every attempt submits and
is then rejected by the SyntaxError of the unguarded post-submit
re-extraction, so `RetryManager.retry` reruns the flow and the invocation
clicks submit 3 times across its 3 attempts before resolving with the
propagated SyntaxError. -/
theorem createNewList_resubmit_bug :
    (createNewList (fun _ => createBugEnv) "Birthday").1 =
      ⟨false, some "SyntaxError: invalid selector"⟩ ∧
    (createNewList (fun _ => createBugEnv) "Birthday").2.1 = 3 ∧
    (createNewList (fun _ => createBugEnv) "Birthday").2.2 = 3 ∧
    validCssIdent (stripIdOf ⟨"atwl-list-name-bad(id", "Bad List"⟩) =
      false := by
  exact ⟨rfl, rfl, rfl, rfl⟩

end AmazonLists
